import Mathlib

/-!
Verification of the concept-map generation pipeline
(`backend/concept_map_generation/mind_map.py` and
`backend/concept_map_generation/ocr_concept_map.py`).

The Python functions are shallowly embedded as total Lean functions.
External services are passed in as explicit parameters:
the generative model is an `Except String String` (either the response
text or a raised exception), the stdlib JSON parser is a function
`String → Except String JsonVal`, and the graphviz `pipe` renderer is a
function `DotGraph → Except String (List Nat)` producing image bytes.
Strings are manipulated as `String` or `List Char` exactly as the Python
code manipulates `str` values, and Python dict/list JSON values are the
inductive `JsonVal`.
-/

set_option autoImplicit false

/-- A JSON value as produced by `json.loads` / consumed by the pipeline
(Python dicts keep insertion order, hence the association-list object). -/
inductive JsonVal where
  | null
  | bool (b : Bool)
  | num (n : Int)
  | str (s : String)
  | arr (xs : List JsonVal)
  | obj (kvs : List (String × JsonVal))

/-- A (subject, relation, object) triple. -/
abbrev Triple := String × String × String

/-! Section: Python string helpers -/

/-- The characters `str.strip()` and the regex class `\s` treat as whitespace
(for the ASCII range handled by this code base). -/
def isWs (c : Char) : Bool :=
  c = ' ' || c = '\t' || c = '\n' || c = '\r' || c = Char.ofNat 11 || c = Char.ofNat 12

/-- Python `str.strip()` on a character list. -/
def pstrip (l : List Char) : List Char :=
  ((l.dropWhile isWs).reverse.dropWhile isWs).reverse

/-- Python `str.strip()` on a `String`. -/
def pstripS (s : String) : String :=
  ⟨pstrip s.data⟩

/-- Delete every whitespace character (used to compare texts modulo whitespace). -/
def removeWs (l : List Char) : List Char :=
  l.filter (fun c => !isWs c)

/-- Python `str.split()` with no separator: split on whitespace runs,
dropping empty pieces. -/
def pywordsGo : List Char → List Char → List (List Char)
  | [], acc => if acc.isEmpty then [] else [acc.reverse]
  | c :: rest, acc =>
    if isWs c then
      if acc.isEmpty then pywordsGo rest [] else acc.reverse :: pywordsGo rest []
    else
      pywordsGo rest (c :: acc)

def pywords (l : List Char) : List (List Char) := pywordsGo l []

def pywordsS (s : String) : List String := (pywords s.data).map List.asString

/-! Section: Chunker (`split_text_into_chunks`, mind_map.py lines 29-53) -/

def isSentenceEnd (c : Char) : Bool := c = '.' || c = '!' || c = '?'

/-- `re.split(r"(?<=[.!?]) +", text)`: scan left to right; a separator is a
maximal run of spaces whose first space is preceded by `.`, `!` or `?`.
`prev` is the character preceding the cursor, `skipping` is true while
consuming the space run of a matched separator (during which no new
separator can begin, since the preceding character is then a space). -/
def splitSentencesGo : List Char → Char → List Char → Bool → List (List Char)
  | [], _, acc, _ => [acc.reverse]
  | c :: rest, prev, acc, skipping =>
    if skipping && c = ' ' then
      splitSentencesGo rest ' ' acc true
    else if !skipping && c = ' ' && isSentenceEnd prev then
      acc.reverse :: splitSentencesGo rest ' ' [] true
    else
      splitSentencesGo rest c (c :: acc) false

def splitSentences (text : List Char) : List (List Char) :=
  splitSentencesGo text ' ' [] false

/-- One iteration of the accumulation loop of `split_text_into_chunks`:
state is (chunks so far, current_chunk). -/
def chunkStep (maxLength : Nat) (st : List (List Char) × List Char) (s : List Char) :
    List (List Char) × List Char :=
  if st.2.length + s.length > maxLength then
    (st.1 ++ [pstrip st.2], s)
  else
    (st.1, st.2 ++ ' ' :: s)

/-- `split_text_into_chunks(text, max_length)` (mind_map.py lines 29-53). -/
def split_text_into_chunks (text : List Char) (maxLength : Nat) : List (List Char) :=
  let st := (splitSentences text).foldl (chunkStep maxLength) ([], [])
  if st.2 = [] then st.1 else st.1 ++ [pstrip st.2]

/-! Section: Triple extractor (`extract_triples_from_text`, mind_map.py lines 60-143)

The generative model is a parameter of type `Except String String`: `.ok t`
stands for a call whose `response.text` is `t`, `.error e` for a call that
raised an exception. -/

/-- `str.split(sep)` for a one-character separator (the only form this code
uses: `"\n"` and `"|"`), keeping empty pieces. -/
def splitOnCharGo (sep : Char) : List Char → List Char → List (List Char)
  | [], acc => [acc.reverse]
  | c :: rest, acc =>
    if c = sep then acc.reverse :: splitOnCharGo sep rest []
    else splitOnCharGo sep rest (c :: acc)

def splitOnChar (sep : Char) (l : List Char) : List (List Char) :=
  splitOnCharGo sep l []

/-- Parse the response lines for triple notation: split on newlines, keep the
lines containing a bar that split on the bar into exactly three
whitespace-trimmed fields (mind_map.py lines 119-125). -/
def parseTripleLines (response : String) : List Triple :=
  (splitOnChar '\n' (pstrip response.data)).filterMap (fun line0 =>
    let line := pstrip line0
    if line.contains '|' then
      match (splitOnChar '|' line).map (fun p => (pstrip p).asString) with
      | [a, b, c] => some (a, b, c)
      | _ => none
    else none)

/-- The fallback main topic: the first (at most) three whitespace-separated
words of the stripped text joined by single spaces
(`' '.join(text.strip().split()[:3])`; the `else` arm of the Python
conditional is unreachable because a `[:3]` slice never has more than
three elements). -/
def mainTopicOf (text : String) : String :=
  " ".intercalate ((pywordsS (pstripS text)).take 3)

/-- `extract_triples_from_text(text, model)` (mind_map.py lines 60-143). -/
def extract_triples_from_text (text : String) (model : Except String String) : List Triple :=
  if text = "" ∨ (pstripS text).length < 10 then
    [("Concept", "is", "Empty or too short")]
  else
    match model with
    | .error _ =>
      if pstripS text ≠ "" then [(mainTopicOf text, "is", "the main concept")]
      else [("Error", "occurred during", "triple extraction")]
    | .ok response =>
      let triples := parseTripleLines response
      if triples = [] ∧ pstripS text ≠ "" then
        [(mainTopicOf text, "is related to", "the topic of interest")]
      else triples

/-! Section: Graph unifier (`generate_concept_map_json`, mind_map.py lines 150-282)

`json.loads` is a parameter `parse : String → Except String JsonVal`
(`.error` stands for a `json.JSONDecodeError`). -/

/-- Lookahead for the trailing-comma repair: after a comma, a whitespace run
followed by the closer. -/
def commaMatches (close : Char) (rest : List Char) : Bool :=
  match rest.dropWhile isWs with
  | d :: _ => d = close
  | [] => false

/-- `re.sub(r",\s*c", "c", s)` for a closing character `c` (`]` or `}`):
a comma followed by a whitespace run and the closer collapses to the
closer alone; scanning resumes after the match. While `skipping`, the
whitespace run of a matched separator is being discarded (it is
guaranteed to end in the closer by the lookahead). -/
def fixTrailingCommaGo (close : Char) : List Char → Bool → List Char
  | [], _ => []
  | c :: rest, skipping =>
    if skipping then
      if c = close then c :: fixTrailingCommaGo close rest false
      else fixTrailingCommaGo close rest true
    else if c = ',' && commaMatches close rest then
      fixTrailingCommaGo close rest true
    else c :: fixTrailingCommaGo close rest false

def fixTrailingComma (close : Char) (l : List Char) : List Char :=
  fixTrailingCommaGo close l false

/-- The response clean-up of `generate_concept_map_json` (lines 200-207):
strip, remove Markdown fences, strip again, repair trailing commas before
`]` and then before `}`. -/
def cleanResponse (raw : String) : String :=
  let s1 := pstripS raw
  let s2 := pstripS ((s1.replace "```json" "").replace "```" "")
  ⟨fixTrailingComma '}' (fixTrailingComma ']' s2.data)⟩

/-- Append `o` to the list held under relation key `r`, creating the entry at
the end when the key is new (Python dict insertion-order update). -/
def addRel (rels : List (String × List String)) (r o : String) : List (String × List String) :=
  match rels with
  | [] => [(r, [o])]
  | (r', os) :: rest => if r' = r then (r', os ++ [o]) :: rest else (r', os) :: addRel rest r o

/-- Insert one triple into the subject grouping (lines 252-260). -/
def addSub (g : List (String × List (String × List String))) (s r o : String) :
    List (String × List (String × List String)) :=
  match g with
  | [] => [(s, [(r, [o])])]
  | (s', rels) :: rest =>
    if s' = s then (s', addRel rels r o) :: rest else (s', rels) :: addSub rest s r o

/-- `subject_groups` built from the triples in order (lines 252-260). -/
def groupTriples (ts : List Triple) : List (String × List (String × List String)) :=
  ts.foldl (fun g t => addSub g t.1 t.2.1 t.2.2) []

def relsToJson (rels : List (String × List String)) : JsonVal :=
  .obj (rels.map (fun rv => (rv.1, JsonVal.arr (rv.2.map JsonVal.str))))

/-- The deterministic fallback tree built on a `JSONDecodeError`
(lines 243-269). -/
def fallbackTreeJson (ts : List Triple) : JsonVal :=
  match ts with
  | [] =>
    .obj [("concept_maps",
      .arr [.obj [("Error", .obj [("occurred during", .arr [.str "concept map generation"])])]])]
  | _ =>
    .obj [("concept_maps",
      .arr ((groupTriples ts).map (fun g => JsonVal.obj [(g.1, relsToJson g.2)])))]

/-- The minimal fallback structure when the parsed value lacks the expected
key and nothing can be salvaged (lines 230-239). -/
def minimalFallbackJson (ts : List Triple) : JsonVal :=
  .obj [("concept_maps",
    .arr [.obj [("Concept",
      .obj [("contains", match ts with | [] => JsonVal.str "information" | t :: _ => .str t.2.2)])]])]

/-- The minimal error graph returned when the model call raises
(lines 271-282). -/
def errorGraphJson : JsonVal :=
  .obj [("concept_maps", .arr [.obj [("Error", .obj [("suggests", .arr [.str "Please try again"])])]])]

def getKeyL : List (String × JsonVal) → String → Option JsonVal
  | [], _ => none
  | (k', v) :: rest, k => if k' = k then some v else getKeyL rest k

def getKey (j : JsonVal) (k : String) : Option JsonVal :=
  match j with
  | .obj kvs => getKeyL kvs k
  | _ => none

def hasKeyL (kvs : List (String × JsonVal)) (k : String) : Bool :=
  (getKeyL kvs k).isSome

def hasKeyB (j : JsonVal) (k : String) : Bool :=
  (getKey j k).isSome

/-- `generate_concept_map_json(triples, model)` (mind_map.py lines 150-282). -/
def generate_concept_map_json (ts : List Triple) (model : Except String String)
    (parse : String → Except String JsonVal) : JsonVal :=
  match model with
  | .error _ => errorGraphJson
  | .ok raw =>
    match parse (cleanResponse raw) with
    | .error _ => fallbackTreeJson ts
    | .ok v =>
      match v with
      | .obj kvs =>
        if hasKeyL kvs "concept_maps" then .obj kvs
        else if kvs.isEmpty then minimalFallbackJson ts
        else
          let entries := kvs.filterMap (fun kv =>
            match kv.2 with
            | .obj o => some (JsonVal.obj [(kv.1, .obj o)])
            | _ => none)
          if entries.isEmpty then minimalFallbackJson ts
          else .obj [("concept_maps", .arr entries)]
      | _ => minimalFallbackJson ts

/-! Section: Counting occurrences of a triple inside a concept-map JSON value
(spec-side measuring functions for the fallback-tree property). -/

def countOcc (os : List String) (o : String) : Nat :=
  (os.map (fun x => if x = o then 1 else 0)).sum

def countRels (rels : List (String × List String)) (r o : String) : Nat :=
  (rels.map (fun rv => if rv.1 = r then countOcc rv.2 o else 0)).sum

def countGroups (g : List (String × List (String × List String))) (s r o : String) : Nat :=
  (g.map (fun sv => if sv.1 = s then countRels sv.2 r o else 0)).sum

def countTriple (ts : List Triple) (s r o : String) : Nat :=
  (ts.map (fun t => if t.1 = s ∧ t.2.1 = r ∧ t.2.2 = o then 1 else 0)).sum

def countItems (j : JsonVal) (o : String) : Nat :=
  match j with
  | .arr items => (items.map (fun x => match x with
      | .str s' => if s' = o then 1 else 0
      | _ => 0)).sum
  | _ => 0

def countRelJson (j : JsonVal) (r o : String) : Nat :=
  match j with
  | .obj rkvs => (rkvs.map (fun kv => if kv.1 = r then countItems kv.2 o else 0)).sum
  | _ => 0

def countEntry (s r o : String) (e : JsonVal) : Nat :=
  match e with
  | .obj kvs => (kvs.map (fun kv => if kv.1 = s then countRelJson kv.2 r o else 0)).sum
  | _ => 0

/-- How many times target `o` occurs under subject key `s` and relation key
`r` across the `concept_maps` entries of a concept-map JSON value. -/
def countUnder (j : JsonVal) (s r o : String) : Nat :=
  match j with
  | .obj kvs => (kvs.map (fun kv =>
      if kv.1 = "concept_maps" then
        match kv.2 with
        | .arr entries => (entries.map (countEntry s r o)).sum
        | _ => 0
      else 0)).sum
  | _ => 0

/-- Whether a JSON value is a dict containing the top-level key
`concept_maps` (the well-formedness property the renderer relies on). -/
def hasCMKey (j : JsonVal) : Bool :=
  match j with
  | .obj kvs => hasKeyL kvs "concept_maps"
  | _ => false

/-! Section: Layout and renderer (`build_graph` / `generate_concept_map_svg`,
mind_map.py lines 289-524)

A graphviz `Digraph` is modelled by its observable content: the graph
attributes set by `dot.attr`, the nodes added by `dot.node` (id, label,
styling attributes), the edges added by `dot.edge` (tail, head, label,
styling attributes) and the same-rank subgraphs. The external
`dot.pipe()` renderer is a parameter `DotGraph → Except String (List Nat)`
returning the image bytes (spec section 6 treats the rendering library as
a pure bytes-producing function). -/

structure DotGraph where
  graphAttrs : List (String × String)
  nodes : List (String × String × List (String × String))
  edges : List (String × String × String × List (String × String))
  sameRanks : List (List String)

def hierAttrs : List (String × String) :=
  [("rankdir", "TB"), ("size", "20"), ("ranksep", "2"), ("nodesep", "1"),
   ("splines", "polyline"), ("concentrate", "true")]

def radialAttrs : List (String × String) :=
  [("rankdir", "LR"), ("size", "20"), ("ranksep", "1.5"), ("nodesep", "0.8"),
   ("splines", "curved"), ("concentrate", "true")]

def networkAttrs : List (String × String) :=
  [("size", "20"), ("overlap", "false"), ("splines", "true"), ("model", "mds"), ("K", "1.0")]

def parentNodeAttrs : List (String × String) :=
  [("shape", "box"), ("style", "filled,rounded"), ("fillcolor", "#D6EAF8"),
   ("fontsize", "14"), ("fontname", "Arial Bold"), ("penwidth", "2")]

def childNodeAttrs : List (String × String) :=
  [("shape", "box"), ("style", "filled,rounded"), ("fillcolor", "#F5F5F5"),
   ("fontsize", "12"), ("fontname", "Arial")]

mutual

/-- Structural equality of JSON values (Python `==` as used by dict key
lookup on the values this code handles). -/
def jeq : JsonVal → JsonVal → Bool
  | .null, .null => true
  | .bool a, .bool b => a == b
  | .num a, .num b => a == b
  | .str a, .str b => a == b
  | .arr xs, .arr ys => jeqList xs ys
  | .obj xs, .obj ys => jeqKVs xs ys
  | _, _ => false

def jeqList : List JsonVal → List JsonVal → Bool
  | [], [] => true
  | x :: xs, y :: ys => jeq x y && jeqList xs ys
  | _, _ => false

def jeqKVs : List (String × JsonVal) → List (String × JsonVal) → Bool
  | [], [] => true
  | (k, v) :: xs, (k', v') :: ys => k == k' && jeq v v' && jeqKVs xs ys
  | _, _ => false

end

/-- Python hashability: lists and dicts are unhashable and raise `TypeError`
when used as dict keys or set members. -/
def jhashable : JsonVal → Bool
  | .arr _ => false
  | .obj _ => false
  | _ => true

/-- Python truthiness of a JSON value. -/
def pyTruthy : JsonVal → Bool
  | .null => false
  | .bool b => b
  | .num n => n != 0
  | .str s => !s.isEmpty
  | .arr xs => !xs.isEmpty
  | .obj kvs => !kvs.isEmpty

/-- `str(value)` as used for labels and error-message interpolation
(exact only for the string values this pipeline feeds it). -/
def labelOf : JsonVal → String
  | .str s => s
  | .num n => toString n
  | .bool b => if b then "True" else "False"
  | .null => "None"
  | .arr _ => "[...]"
  | .obj _ => "\x7b...\x7d"

def findId (m : List (JsonVal × String)) (k : JsonVal) : Option String :=
  match m with
  | [] => none
  | (k', v) :: rest => if jeq k' k then some v else findId rest k

def isInfixChars : List Char → List Char → Bool
  | needle, [] => needle.isEmpty
  | needle, hay@(_ :: rest) =>
    needle.isPrefixOf hay || isInfixChars needle rest

def strContains (hay needle : String) : Bool :=
  isInfixChars needle.data hay.data

/-- Edge styling of `build_graph` (lines 458-470): red for causal relation
labels, dashed for compositional ones. -/
def edgeStyleFor (relation : String) : List (String × String) :=
  let rl := relation.toLower
  if ["cause", "result", "lead to", "produce"].any (fun n => strContains rl n) then
    [("color", "#E74C3C"), ("penwidth", "1.0"), ("fontsize", "11"), ("fontname", "Arial")]
  else if ["part", "component", "contain"].any (fun n => strContains rl n) then
    [("color", "#555555"), ("penwidth", "1.0"), ("fontsize", "11"), ("fontname", "Arial"),
     ("style", "dashed")]
  else
    [("color", "#555555"), ("penwidth", "1.0"), ("fontsize", "11"), ("fontname", "Arial")]

/-- The mutable state of `build_graph`: nodes/edges/rank groups added so far,
the `node_id_map` from concept values to synthetic ids, and the next
fresh id number. -/
structure BuildState where
  nodes : List (String × String × List (String × String)) := []
  edges : List (String × String × String × List (String × String)) := []
  ranks : List (List String) := []
  idMap : List (JsonVal × String) := []
  nextId : Nat := 1

/-- Process one child value (lines 428-447): unhashable children raise
`TypeError`; unseen children get a fresh `n<k>` id and a gray node whose
label is the child (or the id when the child is falsy). -/
def addChildNode (st : BuildState) (child : JsonVal) : Except String (BuildState × String) :=
  if !jhashable child then .error "TypeError: unhashable type"
  else
    match findId st.idMap child with
    | some cid => .ok (st, cid)
    | none =>
      let cid := "n" ++ toString st.nextId
      let lbl := if pyTruthy child then labelOf child else cid
      .ok ({ st with
              idMap := st.idMap ++ [(child, cid)],
              nextId := st.nextId + 1,
              nodes := st.nodes ++ [(cid, lbl, childNodeAttrs)] }, cid)

def processChildren (st : BuildState) (children : JsonVal) :
    Except String (BuildState × List String) :=
  match children with
  | .arr items =>
    items.foldlM (fun (acc : BuildState × List String) c => do
      let (st', cid) ← addChildNode acc.1 c
      pure (st', acc.2 ++ [cid])) (st, [])
  | _ => .ok (st, [])

/-- Process one relation of a parent (lines 423-472): collect child ids, put
multiple children in a same-rank subgraph, connect the parent to each
child with the styled, relation-labelled edge. -/
def processRelation (parentId : String) (st : BuildState) (rel : String × JsonVal) :
    Except String BuildState := do
  let (st1, childIds) ← processChildren st rel.2
  let st2 := if childIds.length > 1 then { st1 with ranks := st1.ranks ++ [childIds] } else st1
  pure { st2 with
          edges := st2.edges ++ childIds.map (fun cid => (parentId, cid, rel.1, edgeStyleFor rel.1)) }

/-- Process one entry of `concept_data` (lines 400-472): non-dict entries
raise (`entry.items()`), parents get a fresh id and a highlighted node,
dict-valued relations are processed, others are ignored. -/
def processEntry (st : BuildState) (entry : JsonVal) : Except String BuildState :=
  match entry with
  | .obj kvs =>
    kvs.foldlM (fun st (pr : String × JsonVal) => do
      let parent := pr.1
      let (st1, pid) :=
        match findId st.idMap (JsonVal.str parent) with
        | some pid => (st, pid)
        | none =>
          let pid := "n" ++ toString st.nextId
          let lbl := if parent ≠ "" then parent else pid
          ({ st with
              idMap := st.idMap ++ [(JsonVal.str parent, pid)],
              nextId := st.nextId + 1,
              nodes := st.nodes ++ [(pid, lbl, parentNodeAttrs)] }, pid)
      match pr.2 with
      | .obj rkvs => rkvs.foldlM (processRelation pid) st1
      | _ => pure st1) st
  | _ => .error "AttributeError: entry has no attribute items"

/-- `build_graph(concept_data, layout_style)` (mind_map.py lines 353-474).
The graph attributes are chosen by the `if/elif/else` on `layout_style`;
anything other than `hierarchical` and `radial` falls into the `else`
(network) branch. -/
def build_graph (data : List JsonVal) (layout : String) : Except String DotGraph := do
  let st ← data.foldlM processEntry {}
  pure { graphAttrs :=
          if layout = "hierarchical" then hierAttrs
          else if layout = "radial" then radialAttrs
          else networkAttrs,
         nodes := st.nodes, edges := st.edges, sameRanks := st.ranks }

/-! Section: Base64 and the SVG entry point -/

def b64Alphabet : List Char :=
  "ABCDEFGHIJKLMNOPQRSTUVWXYZabcdefghijklmnopqrstuvwxyz0123456789+/".data

def b64Char (n : Nat) : Char := b64Alphabet.getD n 'A'

/-- Standard base64 of a byte sequence. -/
def base64Encode : List Nat → List Char
  | [] => []
  | [b1] => [b64Char (b1 / 4), b64Char (b1 % 4 * 16), '=', '=']
  | [b1, b2] => [b64Char (b1 / 4), b64Char (b1 % 4 * 16 + b2 / 16), b64Char (b2 % 16 * 4), '=']
  | b1 :: b2 :: b3 :: rest =>
    b64Char (b1 / 4) :: b64Char (b1 % 4 * 16 + b2 / 16) ::
      b64Char (b2 % 16 * 4 + b3 / 64) :: b64Char (b3 % 64) :: base64Encode rest

def b64 (bs : List Nat) : String := ⟨base64Encode bs⟩

/-- The minimal one-node error diagram of the `except` branch of
`generate_concept_map_svg` (lines 517-521); its single node is named
`Error` and its label is the full error text. -/
def errorDot (label : String) : DotGraph :=
  { graphAttrs := [("rankdir", "TB")],
    nodes := [("Error", label,
      [("shape", "box"), ("style", "filled"), ("fillcolor", "red"), ("fontcolor", "white")])],
    edges := [], sameRanks := [] }

/-- The `except` branch of `generate_concept_map_svg`: render the one-node
error diagram; if even that `pipe` call raises, re-raise
`ValueError(f"Failed to generate concept map: ...")`. -/
def errBranch (e : String) (pipe : DotGraph → Except String (List Nat)) : Except String String :=
  match pipe (errorDot ("Error: " ++ e)) with
  | .ok bs => .ok (b64 bs)
  | .error _ => .error ("Failed to generate concept map: " ++ e)

/-- The input validation of `generate_concept_map_svg` (lines 487-501), in
evaluation order; `some msg` is the `ValueError` message raised. An empty
dict is falsy in Python and hits the first check. -/
def svgInputError (j : JsonVal) : Option String :=
  if !pyTruthy j || !(match j with | .obj _ => true | _ => false) then
    some "Invalid concept map data format"
  else if !hasKeyB j "concept_maps" then
    some "Missing concept_maps key in the data"
  else
    match getKey j "concept_maps" with
    | some (.arr items) =>
      if items.isEmpty then some "concept_maps must be a non-empty list" else none
    | _ => some "concept_maps must be a non-empty list"

def conceptDataOf (j : JsonVal) : List JsonVal :=
  match getKey j "concept_maps" with
  | some (.arr items) => items
  | _ => []

/-- `generate_concept_map_svg(concept_map_json, layout_style)`
(mind_map.py lines 476-524). -/
def generate_concept_map_svg (j : JsonVal) (layout : String)
    (pipe : DotGraph → Except String (List Nat)) : Except String String :=
  match svgInputError j with
  | some e => errBranch e pipe
  | none =>
    match build_graph (conceptDataOf j) layout with
    | .error e => errBranch e pipe
    | .ok dot =>
      match pipe dot with
      | .error e => errBranch e pipe
      | .ok bs => if bs.isEmpty then errBranch "Empty SVG output" pipe else .ok (b64 bs)

/-- A `pipe` built from a total bytes-producing renderer (the spec contract
for the external graph-rendering library). -/
def okPipe (render : DotGraph → List Nat) : DotGraph → Except String (List Nat) :=
  fun g => .ok (render g)

/-! Section: OCR / drawing front end (`ocr_concept_map.py`)

The dictionaries passed around the OCR path all live in one record type;
a `none` field models an absent key. The external effects are parameters:
`conv` is the outcome of obtaining a PIL image from the input
(PNG decode / SVG rasterisation, lines 441-474), `visionInit` the vision
model initialisation and test call (lines 477-499), `visionResp` and
`secondaryResp` the two vision-model calls of
`extract_concepts_and_relations_from_image`, `parse` the stdlib JSON
parser and `pipe` the graphviz renderer. -/

/-- A Python dict of the OCR path. Field-to-key mapping: `errorMsg` is the
`error` key, `struct` the `structure` key, `rawText` the `raw_text` key,
`originalResponse` the `original_response` key; the rest are named as in
the source. `none` models an absent key. -/
structure OcrDict where
  errorMsg : Option String := none
  concepts : List JsonVal := []
  relationships : List JsonVal := []
  struct : JsonVal := JsonVal.null
  image : Option String := none
  format : Option String := none
  rawText : Option String := none
  originalResponse : Option String := none

def unknownStruct : JsonVal := .obj [("type", .str "unknown")]

/-- `create_mock_ocr_result(svg_content)` (ocr_concept_map.py lines 557-608):
the fixed two-concept mock; its `image` field is the input passed through
verbatim and its format claims `svg` unconditionally. -/
def create_mock_ocr_result (svg_content : String) : OcrDict :=
  { concepts :=
      [.obj [("id", .str "c1"), ("name", .str "Concept 1"), ("description", .str "First concept")],
       .obj [("id", .str "c2"), ("name", .str "Concept 2"), ("description", .str "Second concept")]],
    relationships := [.obj [("source", .str "c1"), ("target", .str "c2"), ("label", .str "relates to")]],
    struct := .obj [("type", .str "network"), ("root", .str "c1")],
    image := some svg_content,
    format := some "svg",
    rawText := some ("Digitized concept map with concepts: Concept 1, Concept 2\n\nConcepts:\nConcept 1: First concept\nConcept 2: Second concept\n\nRelationships:\nConcept 1 relates to Concept 2") }

/-- Shape validation of the vision model JSON
(ocr_concept_map.py lines 286-320), reporting the first `ValueError`
message raised; on success returns the concept and relationship lists. -/
def validateOcr (data : JsonVal) : Except String (List JsonVal × List JsonVal) :=
  match data with
  | .obj _ =>
    if !hasKeyB data "concepts" then .error "Missing required key: concepts"
    else if !hasKeyB data "relationships" then .error "Missing required key: relationships"
    else if !hasKeyB data "structure" then .error "Missing required key: structure"
    else
      match getKey data "concepts", getKey data "relationships" with
      | some (.arr cs), some (.arr rs) => do
        let _ ← cs.foldlM (fun _ c =>
          match c with
          | .obj _ =>
            if hasKeyB c "id" && hasKeyB c "name" then Except.ok ()
            else .error "Each concept must have id and name"
          | _ => .error "Each concept must be a dictionary") ()
        let ids ← cs.foldlM (fun (acc : List JsonVal) c =>
          match getKey c "id" with
          | some v => if jhashable v then .ok (acc ++ [v]) else .error "TypeError: unhashable type"
          | none => .error "KeyError: id") []
        let _ ← rs.foldlM (fun _ r =>
          match r with
          | .obj _ =>
            if !(hasKeyB r "source") || !(hasKeyB r "target") then
              .error "Each relationship must have source and target"
            else
              let s := (getKey r "source").getD JsonVal.null
              let t := (getKey r "target").getD JsonVal.null
              if !jhashable s || !jhashable t then .error "TypeError: unhashable type"
              else if !(ids.any (fun i => jeq i s)) then
                .error ("Invalid source concept ID: " ++ labelOf s)
              else if !(ids.any (fun i => jeq i t)) then
                .error ("Invalid target concept ID: " ++ labelOf t)
              else .ok ()
          | _ => .error "Each relationship must be a dictionary") ()
        pure (cs, rs)
      | some (.arr _), _ => .error "relationships must be a list"
      | _, _ => .error "concepts must be a list"
  | _ => .error "Response is not a dictionary"

/-- The plain-text format built from the structured data when the secondary
vision call fails (ocr_concept_map.py lines 329-337). -/
def builtTextFormat (cs rs : List JsonVal) : String :=
  let nameFor := fun (idv : JsonVal) =>
    match cs.find? (fun c => jeq ((getKey c "id").getD JsonVal.null) idv) with
    | some c => (getKey c "name").getD JsonVal.null
    | none => idv
  "Concepts:\n" ++
    String.join (cs.map (fun c =>
      labelOf ((getKey c "name").getD JsonVal.null) ++ ": " ++
        labelOf ((getKey c "description").getD (JsonVal.str "")) ++ "\n")) ++
  "\nRelationships:\n" ++
    String.join (rs.map (fun r =>
      labelOf (nameFor ((getKey r "source").getD JsonVal.null)) ++ " " ++
        labelOf ((getKey r "label").getD (JsonVal.str "related to")) ++ " " ++
        labelOf (nameFor ((getKey r "target").getD JsonVal.null)) ++ "\n"))

/-- `extract_concepts_and_relations_from_image(image, model)`
(ocr_concept_map.py lines 177-370). A raised vision call or a validation
failure yields the outer-except error dictionary; a JSON decode failure
yields the inner error dictionary carrying the raw response text. -/
def extract_concepts_and_relations_from_image (visionResp secondaryResp : Except String String)
    (parse : String → Except String JsonVal) : OcrDict :=
  match visionResp with
  | .error e =>
    { errorMsg := some ("Failed to extract concepts: " ++ e),
      struct := unknownStruct,
      rawText := some ("Error extracting concepts: " ++ e) }
  | .ok t0 =>
    let result0 := pstripS t0
    let result1 := if result0.startsWith "```json" then result0.drop 7 else result0
    let result2 := if result1.endsWith "```" then result1.dropRight 3 else result1
    match parse result2 with
    | .error je =>
      { errorMsg := some ("Invalid JSON response: " ++ je),
        struct := unknownStruct,
        rawText := some result0 }
    | .ok data =>
      match validateOcr data with
      | .error msg =>
        { errorMsg := some ("Failed to extract concepts: " ++ msg),
          struct := unknownStruct,
          rawText := some ("Error extracting concepts: " ++ msg) }
      | .ok (cs, rs) =>
        let rawText :=
          match secondaryResp with
          | .ok t2 => pstripS t2
          | .error _ => builtTextFormat cs rs
        { concepts := cs, relationships := rs,
          struct := (getKey data "structure").getD JsonVal.null,
          rawText := some rawText,
          originalResponse := some result0 }

def getKeyE (j : JsonVal) (k : String) : Except String JsonVal :=
  match getKey j k with
  | some v => .ok v
  | none => .error ("KeyError: " ++ k)

/-- `generate_mind_map_from_ocr_results(ocr_data, model)`
(ocr_concept_map.py lines 372-427): convert the OCR concepts and
relationships into the `nodes`/`edges` structure, simplify labels longer
than three words, and hand the result to `generate_concept_map_svg` with
the `network` layout. Exceptions propagate (the function re-raises). -/
def generate_mind_map_from_ocr_results (ocr : OcrDict)
    (pipe : DotGraph → Except String (List Nat)) : Except String String := do
  let nodes ← ocr.concepts.mapM (fun c => do
    let cid ← getKeyE c "id"
    let cname ← getKeyE c "name"
    let desc := (getKey c "description").getD (JsonVal.str "")
    pure (JsonVal.obj [("id", cid), ("label", cname), ("description", desc)]))
  let edges ← ocr.relationships.mapM (fun r => do
    let src ← getKeyE r "source"
    let tgt ← getKeyE r "target"
    let lbl0 := (getKey r "label").getD (JsonVal.str "relates to")
    let lbl ←
      match lbl0 with
      | .str s => Except.ok (if (pywordsS s).length > 3 then "relates to" else s)
      | _ => Except.error "AttributeError: label has no attribute split"
    pure (JsonVal.obj [("source", src), ("target", tgt), ("label", JsonVal.str lbl)]))
  generate_concept_map_svg (.obj [("nodes", .arr nodes), ("edges", .arr edges)]) "network" pipe

/-- `process_drawing_for_concept_map(svg_content, model)`
(ocr_concept_map.py lines 429-555). -/
def process_drawing_for_concept_map (svg_content : String)
    (conv : Except String Unit) (visionInit : Except String Unit)
    (visionResp secondaryResp : Except String String)
    (parse : String → Except String JsonVal)
    (pipe : DotGraph → Except String (List Nat)) : OcrDict :=
  match conv with
  | .error _ => create_mock_ocr_result svg_content
  | .ok _ =>
    match visionInit with
    | .error e =>
      { errorMsg := some ("Vision model not available: " ++ e), struct := unknownStruct }
    | .ok _ =>
      let ocr := extract_concepts_and_relations_from_image visionResp secondaryResp parse
      if ocr.errorMsg.isSome then ocr
      else
        let rawText := ocr.rawText.getD ""
        if !ocr.concepts.isEmpty then
          match generate_mind_map_from_ocr_results ocr pipe with
          | .ok svgB64 =>
            { concepts := ocr.concepts, relationships := ocr.relationships,
              struct := ocr.struct, image := some svgB64, format := some "svg",
              rawText := some rawText }
          | .error _ => create_mock_ocr_result svg_content
        else if rawText ≠ "" then
          { errorMsg := some "No structured data available, using raw text for processing",
            struct := unknownStruct, rawText := some rawText }
        else create_mock_ocr_result svg_content

/-- A concrete well-formed OCR extraction result (one concept, one
self-relationship), used to evaluate the OCR rendering path. -/
def ocrShapeExample : OcrDict :=
  { concepts := [.obj [("id", .str "c1"), ("name", .str "Node A")]],
    relationships := [.obj [("source", .str "c1"), ("target", .str "c1"), ("label", .str "relates to")]] }

/-! Section: Chunker lemmas -/

theorem length_dropWhile_isWs_le (l : List Char) (p : Char → Bool) :
    (l.dropWhile p).length ≤ l.length := by
  induction l with
  | nil => simp [List.dropWhile]
  | cons c rest ih =>
    simp only [List.dropWhile]
    split
    · exact Nat.le_trans ih (Nat.le_succ _)
    · simp

theorem pstrip_length_le (l : List Char) : (pstrip l).length ≤ l.length := by
  unfold pstrip
  calc ((l.dropWhile isWs).reverse.dropWhile isWs).reverse.length
      = ((l.dropWhile isWs).reverse.dropWhile isWs).length := by simp
    _ ≤ (l.dropWhile isWs).reverse.length := length_dropWhile_isWs_le _ _
    _ = (l.dropWhile isWs).length := by simp
    _ ≤ l.length := length_dropWhile_isWs_le _ _

theorem removeWs_cons_ws (c : Char) (l : List Char) (h : isWs c = true) :
    removeWs (c :: l) = removeWs l := by
  simp [removeWs, List.filter_cons, h]

theorem removeWs_dropWhile (l : List Char) : removeWs (l.dropWhile isWs) = removeWs l := by
  induction l with
  | nil => rfl
  | cons c rest ih =>
    rw [List.dropWhile_cons]
    by_cases h : isWs c = true
    · rw [if_pos h, ih, removeWs_cons_ws c rest h]
    · rw [if_neg h]

theorem removeWs_reverse (l : List Char) : removeWs l.reverse = (removeWs l).reverse := by
  simp [removeWs, List.filter_reverse]

theorem removeWs_pstrip (l : List Char) : removeWs (pstrip l) = removeWs l := by
  unfold pstrip
  rw [removeWs_reverse, removeWs_dropWhile, removeWs_reverse, List.reverse_reverse,
    removeWs_dropWhile]

theorem removeWs_append (l l' : List Char) :
    removeWs (l ++ l') = removeWs l ++ removeWs l' := by
  simp [removeWs, List.filter_append]

theorem removeWs_space_cons (l : List Char) : removeWs (' ' :: l) = removeWs l := rfl

/-- Splitting into sentences loses exactly the separator spaces: the
concatenation of the pieces agrees with the input modulo whitespace. -/
theorem removeWs_splitSentencesGo (l : List Char) :
    ∀ (prev : Char) (acc : List Char) (skipping : Bool),
      removeWs (splitSentencesGo l prev acc skipping).flatten = removeWs (acc.reverse ++ l) := by
  induction l with
  | nil => intro prev acc skipping; simp [splitSentencesGo]
  | cons c rest ih =>
    intro prev acc skipping
    simp only [splitSentencesGo]
    split
    · rename_i h
      have hc : c = ' ' := by
        simp only [Bool.and_eq_true, decide_eq_true_eq] at h
        exact h.2
      subst hc
      rw [ih ' ' acc true, removeWs_append, removeWs_append, removeWs_space_cons]
    · split
      · rename_i h1 h2
        have hc : c = ' ' := by
          simp only [Bool.and_eq_true, decide_eq_true_eq] at h2
          exact h2.1.2
        subst hc
        simp only [List.flatten_cons]
        rw [removeWs_append, ih ' ' [] true]
        simp only [List.reverse_nil, List.nil_append, removeWs_append, removeWs_space_cons]
      · rw [ih c (c :: acc) false]
        simp

theorem removeWs_splitSentences (text : List Char) :
    removeWs (splitSentences text).flatten = removeWs text := by
  unfold splitSentences
  rw [removeWs_splitSentencesGo]
  rfl

/-- The accumulation loop of the chunker preserves the non-whitespace content:
joining the chunks and the pending current chunk reproduces (modulo
whitespace) the already-consumed sentences. -/
theorem removeWs_chunkFold (maxLength : Nat) (sents : List (List Char)) :
    ∀ st : List (List Char) × List Char,
      removeWs ((sents.foldl (chunkStep maxLength) st).1.flatten ++
          (sents.foldl (chunkStep maxLength) st).2) =
        removeWs (st.1.flatten ++ st.2 ++ sents.flatten) := by
  induction sents with
  | nil => intro st; simp
  | cons s rest ih =>
    intro st
    simp only [List.foldl_cons]
    rw [ih (chunkStep maxLength st s)]
    unfold chunkStep
    split
    · simp only [List.flatten_append, List.flatten_cons, List.flatten_nil]
      simp [removeWs_append, removeWs_pstrip]
    · simp only [List.flatten_cons]
      have : removeWs (st.2 ++ ' ' :: s) = removeWs st.2 ++ removeWs s := by
        rw [removeWs_append, removeWs_space_cons]
      simp [removeWs_append, removeWs_space_cons, this]

theorem pstripS_empty : pstripS "" = "" := rfl

/-- Flushing the pending chunk keeps the size/single-sentence invariant. -/
theorem pstrip_cur_ok (maxLength : Nat) (S : List (List Char)) (cur : List Char)
    (h : cur = [] ∨ (∃ s ∈ S, cur = s) ∨ cur.length ≤ maxLength + 1) :
    (pstrip cur).length ≤ maxLength + 1 ∨ ∃ s ∈ S, pstrip cur = pstrip s := by
  rcases h with rfl | ⟨s, hs, he⟩ | h
  · left; simp [pstrip]
  · right; exact ⟨s, hs, by rw [he]⟩
  · left; exact le_trans (pstrip_length_le cur) h

/-- Invariant of the chunk accumulation loop: every emitted chunk either fits
in `maxLength + 1` characters or is a (stripped) single sentence, and the
pending chunk is empty, a single sentence, or fits in `maxLength + 1`. -/
theorem chunkFold_sizes (maxLength : Nat) (S : List (List Char)) (sents : List (List Char)) :
    ∀ st : List (List Char) × List Char,
      (∀ s ∈ sents, s ∈ S) →
      (∀ ch ∈ st.1, ch.length ≤ maxLength + 1 ∨ ∃ s ∈ S, ch = pstrip s) →
      (st.2 = [] ∨ (∃ s ∈ S, st.2 = s) ∨ st.2.length ≤ maxLength + 1) →
      (∀ ch ∈ (sents.foldl (chunkStep maxLength) st).1,
          ch.length ≤ maxLength + 1 ∨ ∃ s ∈ S, ch = pstrip s) ∧
        ((sents.foldl (chunkStep maxLength) st).2 = [] ∨
          (∃ s ∈ S, (sents.foldl (chunkStep maxLength) st).2 = s) ∨
          (sents.foldl (chunkStep maxLength) st).2.length ≤ maxLength + 1) := by
  induction sents with
  | nil => intro st _ h1 h2; exact ⟨h1, h2⟩
  | cons s rest ih =>
    intro st hmem h1 h2
    simp only [List.foldl_cons]
    refine ih (chunkStep maxLength st s) (fun x hx => hmem x (List.mem_cons_of_mem s hx)) ?_ ?_
    · unfold chunkStep
      split
      · intro ch hch
        rcases List.mem_append.1 hch with hin | hone
        · exact h1 ch hin
        · have : ch = pstrip st.2 := by simpa using hone
          subst this
          rcases pstrip_cur_ok maxLength S st.2 h2 with hle | ⟨s', hs', he⟩
          · exact Or.inl hle
          · exact Or.inr ⟨s', hs', he⟩
      · exact h1
    · unfold chunkStep
      split
      · exact Or.inr (Or.inl ⟨s, hmem s (List.mem_cons_self s rest), rfl⟩)
      · rename_i hle
        right; right
        simp only [List.length_append, List.length_cons]
        omega

/-! Section: Claim C7 and C8: the chunker -/

/-- C7 counterexample: with `max_length = 5` and input `Aaaaa. Ab. C.`, the
chunk `Ab. C.` has length 6 > 5 yet consists of two sentences, so it is
not a single oversized sentence, contradicting the claimed bound. -/
theorem chunk_oversize_counterexample :
    ∃ ch ∈ split_text_into_chunks ("Aaaaa. Ab. C.".data) 5,
      5 < ch.length ∧ ∀ s ∈ splitSentences ("Aaaaa. Ab. C.".data), ch ≠ pstrip s := by
  decide

/-- C7 (amended): every chunk produced by `split_text_into_chunks` has length
at most `max_length + 1` (the separating space appended by
`current_chunk += " " + sentence` is not counted by the length check),
except a chunk that is a single (stripped) sentence, which may be
arbitrarily long when that sentence exceeds `max_length`. -/
theorem chunk_length_at_most_max_plus_one (text : List Char) (maxLength : Nat) (ch : List Char)
    (hch : ch ∈ split_text_into_chunks text maxLength) :
    ch.length ≤ maxLength + 1 ∨ ∃ s ∈ splitSentences text, ch = pstrip s := by
  have h := chunkFold_sizes maxLength (splitSentences text) (splitSentences text)
    ([], []) (fun _ hs => hs) (by simp) (Or.inl rfl)
  rcases h with ⟨h1, h2⟩
  simp only [split_text_into_chunks] at hch
  by_cases hnil : ((splitSentences text).foldl (chunkStep maxLength) ([], [])).2 = []
  · rw [if_pos hnil] at hch
    exact h1 ch hch
  · rw [if_neg hnil] at hch
    rcases List.mem_append.1 hch with hin | hone
    · exact h1 ch hin
    · have hc : ch = pstrip ((splitSentences text).foldl (chunkStep maxLength) ([], [])).2 := by
        simpa using hone
      subst hc
      rcases pstrip_cur_ok maxLength (splitSentences text) _ h2 with hle | hex
      · exact Or.inl hle
      · exact Or.inr hex

/-- C7 witness: the amended bound applied to the chunk `Ab. C.` of the
counterexample input, at `max_length = 5`. -/
theorem chunk_length_at_most_max_plus_one_witness :
    ("Ab. C.".data).length ≤ 5 + 1 ∨
      ∃ s ∈ splitSentences ("Aaaaa. Ab. C.".data), "Ab. C.".data = pstrip s :=
  chunk_length_at_most_max_plus_one ("Aaaaa. Ab. C.".data) 5 ("Ab. C.".data) (by decide)

/-- C8: for every input text and maximum length, concatenating the chunks
returned by `split_text_into_chunks` reproduces the input modulo
whitespace: deleting all whitespace from the concatenation and from the
input yields the same string of characters. -/
theorem chunks_reconstruct_input (text : List Char) (maxLength : Nat) :
    removeWs (split_text_into_chunks text maxLength).flatten = removeWs text := by
  have h := removeWs_chunkFold maxLength (splitSentences text) ([], [])
  simp only [List.flatten_nil, List.nil_append] at h
  simp only [split_text_into_chunks]
  by_cases hnil : ((splitSentences text).foldl (chunkStep maxLength) ([], [])).2 = []
  · rw [if_pos hnil]
    rw [hnil, List.append_nil] at h
    rw [h, removeWs_splitSentences]
  · rw [if_neg hnil]
    rw [List.flatten_append, List.flatten_cons, List.flatten_nil, List.append_nil,
      removeWs_append, removeWs_pstrip, ← removeWs_append, h, removeWs_splitSentences]

/-! Section: Claim C9: triple extractor degenerate cases -/

/-- C9: (i) for input that is empty or whose stripped length is below the
10-character minimum, `extract_triples_from_text` returns exactly the one
fallback triple marking the input as empty or too short, for every model
behaviour (so without consulting the model); (ii) for input long enough
to reach the model, when the response contains zero lines that split on
the bar into exactly three fields, it returns exactly one triple
(first three words of the input, is related to, the topic of interest). -/
theorem extract_triples_degenerate_cases :
    (∀ (text : String) (model : Except String String),
      (pstripS text).length < 10 →
        extract_triples_from_text text model = [("Concept", "is", "Empty or too short")]) ∧
    (∀ (text response : String),
      10 ≤ (pstripS text).length →
      parseTripleLines response = [] →
        extract_triples_from_text text (.ok response) =
          [(mainTopicOf text, "is related to", "the topic of interest")]) := by
  constructor
  · intro text model hshort
    unfold extract_triples_from_text
    rw [if_pos (Or.inr hshort)]
  · intro text response hlong hparse
    have hne : pstripS text ≠ "" := by
      intro hc
      rw [hc] at hlong
      simp [String.length] at hlong
    unfold extract_triples_from_text
    rw [if_neg ?hcond]
    case hcond =>
      rintro (rfl | hshort)
      · exact hne pstripS_empty
      · omega
    simp only [hparse]
    rw [if_pos ⟨trivial, hne⟩]

/-- C9 witness: a 20-character input together with a model response that
contains no triple lines. -/
theorem extract_triples_degenerate_cases_witness :
    extract_triples_from_text "Lean theorem proving" (.ok "no triple lines here") =
      [("Lean theorem proving", "is related to", "the topic of interest")] := by
  have h := extract_triples_degenerate_cases.2 "Lean theorem proving" "no triple lines here"
    (by decide) (by decide)
  rw [h]
  decide

/-! Section: Base64 helper lemmas -/

theorem base64Encode_ne_nil : ∀ bs : List Nat, bs ≠ [] → base64Encode bs ≠ []
  | [], h => absurd rfl h
  | [_], _ => by simp [base64Encode]
  | [_, _], _ => by simp [base64Encode]
  | _ :: _ :: _ :: _, _ => by simp [base64Encode]

theorem b64_ne_empty (bs : List Nat) (h : bs ≠ []) : b64 bs ≠ "" := by
  intro hc
  have hdata : base64Encode bs = [] := congrArg String.data hc
  exact base64Encode_ne_nil bs h hdata

/-! Section: Claim C2: layout-style dispatch of `build_graph` -/

/-- C2 counterexample: the empty layout style (neither hierarchical, radial
nor network) produces the network graph attributes and not the
hierarchical ones, refuting the claimed silent default to hierarchical. -/
theorem build_graph_layout_counterexample :
    build_graph [] "" = .ok ⟨networkAttrs, [], [], []⟩ ∧ networkAttrs ≠ hierAttrs := by
  constructor
  · rfl
  · decide

/-- C2 (amended): any layout style other than exactly `hierarchical` or
`radial` (including unrecognized, empty, or `network`) falls into the
`else` branch and gets the network layout attributes; no error is raised
(only a Python-level default argument yields hierarchical when the
argument is omitted). -/
theorem build_graph_unknown_layout_is_network (data : List JsonVal) (layout : String)
    (g : DotGraph) (h1 : layout ≠ "hierarchical") (h2 : layout ≠ "radial")
    (h3 : build_graph data layout = .ok g) :
    g.graphAttrs = networkAttrs := by
  unfold build_graph at h3
  cases hst : data.foldlM processEntry {} with
  | error e => rw [hst] at h3; exact absurd h3 (by simp [Bind.bind, Except.bind])
  | ok st =>
    rw [hst] at h3
    have hg : g = { graphAttrs := if layout = "hierarchical" then hierAttrs
                      else if layout = "radial" then radialAttrs else networkAttrs,
                    nodes := st.nodes, edges := st.edges, sameRanks := st.ranks } := by
      have := h3
      simp [Bind.bind, Except.bind, pure, Except.pure] at this
      exact this.symm
    rw [hg]
    simp [if_neg h1, if_neg h2]

/-- C2 witness: the amended statement applied to the empty concept data and
the empty layout string. -/
theorem build_graph_unknown_layout_is_network_witness :
    (⟨networkAttrs, [], [], []⟩ : DotGraph).graphAttrs = networkAttrs :=
  build_graph_unknown_layout_is_network [] "" ⟨networkAttrs, [], [], []⟩
    (by decide) (by decide) rfl

/-! Section: Claim C5: `generate_concept_map_svg` always answers -/

/-- C5: with the external renderer modelled (as in the spec) as a total
function producing non-empty image bytes, `generate_concept_map_svg`
never raises (returns `.ok`) and returns a non-empty base64 string, for
every input JSON value and layout style; when the input is invalid (not
a dict or falsy, missing the `concept_maps` key, or its value not a
non-empty list) the returned image is the rendered single-node error
diagram whose label carries the error text, and likewise when graph
construction raises. -/
theorem svg_total_and_error_placeholder (j : JsonVal) (layout : String)
    (render : DotGraph → List Nat) (hr : ∀ g : DotGraph, render g ≠ []) :
    ∃ s, generate_concept_map_svg j layout (okPipe render) = .ok s ∧ s ≠ "" ∧
      (∀ e, svgInputError j = some e → s = b64 (render (errorDot ("Error: " ++ e)))) ∧
      (∀ e, svgInputError j = none → build_graph (conceptDataOf j) layout = .error e →
        s = b64 (render (errorDot ("Error: " ++ e)))) := by
  unfold generate_concept_map_svg
  cases herr : svgInputError j with
  | some e =>
    refine ⟨b64 (render (errorDot ("Error: " ++ e))), rfl, b64_ne_empty _ (hr _), ?_, ?_⟩
    · intro e' he'
      cases he'
      rfl
    · intro e' he'
      cases he'
  | none =>
    cases hbg : build_graph (conceptDataOf j) layout with
    | error e =>
      refine ⟨b64 (render (errorDot ("Error: " ++ e))), rfl, b64_ne_empty _ (hr _), ?_, ?_⟩
      · intro e' he'
        cases he'
      · intro e' _ he'
        cases he'
        rfl
    | ok dot =>
      have hne : (render dot).isEmpty = false := by
        cases hrd : render dot with
        | nil => exact absurd hrd (hr dot)
        | cons a l => rfl
      refine ⟨b64 (render dot), ?_, b64_ne_empty _ (hr dot), ?_, ?_⟩
      · simp only [okPipe, hne, Bool.false_eq_true, if_false]
      · intro e' he'
        cases he'
      · intro e' _ he'
        cases he'

/-- C5 witness: the null input (invalid format) with a renderer producing the
single byte 0. -/
theorem svg_total_and_error_placeholder_witness :
    ∃ s, generate_concept_map_svg JsonVal.null "x" (okPipe (fun _ => [0])) = .ok s ∧ s ≠ "" := by
  obtain ⟨s, h1, h2, -, -⟩ :=
    svg_total_and_error_placeholder JsonVal.null "x" (fun _ => [0]) (fun _ => by simp)
  exact ⟨s, h1, h2⟩

/-! Section: Claim C1: the Render Graph shape is rejected by the renderer -/

/-- C1 (code bug): a dict of the `nodes`/`edges` Render-Graph shape handed
over by the OCR front end never renders those nodes and edges: for every
`nodes` and `edges` value, every layout style and every renderer,
`generate_concept_map_svg` takes the missing-key error branch and returns
the base64 of the single-node error placeholder; consequently
`generate_mind_map_from_ocr_results` on a well-formed extraction (here
one concept and one relationship) also returns the rendered error
placeholder rather than a diagram of the extracted concepts. -/
theorem render_graph_shape_yields_error_placeholder :
    (∀ (a b : JsonVal) (layout : String) (render : DotGraph → List Nat),
      generate_concept_map_svg (.obj [("nodes", a), ("edges", b)]) layout (okPipe render) =
        .ok (b64 (render (errorDot ("Error: " ++ "Missing concept_maps key in the data"))))) ∧
    (∀ render : DotGraph → List Nat,
      generate_mind_map_from_ocr_results ocrShapeExample (okPipe render) =
        .ok (b64 (render (errorDot ("Error: " ++ "Missing concept_maps key in the data"))))) := by
  constructor
  · intro a b layout render
    rfl
  · intro render
    rfl

/-! Section: Counting lemmas for the fallback tree -/

theorem countOcc_append (os os' : List String) (o : String) :
    countOcc (os ++ os') o = countOcc os o + countOcc os' o := by
  simp [countOcc]

theorem countOcc_single (o' o : String) : countOcc [o'] o = if o' = o then 1 else 0 := by
  simp [countOcc]

theorem countRels_nil (r o : String) : countRels [] r o = 0 := rfl

theorem countRels_cons (a : String) (b : List String) (rest : List (String × List String))
    (r o : String) :
    countRels ((a, b) :: rest) r o = (if a = r then countOcc b o else 0) + countRels rest r o := by
  simp [countRels]

theorem countGroups_nil (s r o : String) : countGroups [] s r o = 0 := rfl

theorem countGroups_cons (a : String) (rels : List (String × List String))
    (rest : List (String × List (String × List String))) (s r o : String) :
    countGroups ((a, rels) :: rest) s r o =
      (if a = s then countRels rels r o else 0) + countGroups rest s r o := by
  simp [countGroups]

theorem addRel_count (rels : List (String × List String)) (r' o' r o : String) :
    countRels (addRel rels r' o') r o =
      countRels rels r o + (if r' = r ∧ o' = o then 1 else 0) := by
  induction rels with
  | nil =>
    simp only [addRel, countRels_cons, countRels_nil, countOcc_single]
    by_cases hr : r' = r <;> by_cases ho : o' = o <;> simp [hr, ho]
  | cons hd rest ih =>
    obtain ⟨a, b⟩ := hd
    simp only [addRel]
    by_cases har : a = r'
    · rw [if_pos har, countRels_cons, countRels_cons, countOcc_append, countOcc_single, ← har]
      by_cases ha : a = r
      · by_cases ho : o' = o <;> (simp [ha, ho]; try omega)
      · simp [ha]
    · rw [if_neg har, countRels_cons, countRels_cons, ih]
      omega

theorem addSub_count (g : List (String × List (String × List String)))
    (s' r' o' s r o : String) :
    countGroups (addSub g s' r' o') s r o =
      countGroups g s r o + (if s' = s ∧ r' = r ∧ o' = o then 1 else 0) := by
  induction g with
  | nil =>
    simp only [addSub, countGroups_cons, countGroups_nil, countRels_cons, countRels_nil,
      countOcc_single]
    by_cases hs : s' = s <;> by_cases hr : r' = r <;> by_cases ho : o' = o <;>
      simp [hs, hr, ho]
  | cons hd rest ih =>
    obtain ⟨a, rels⟩ := hd
    simp only [addSub]
    by_cases has : a = s'
    · rw [if_pos has, countGroups_cons, countGroups_cons, addRel_count, ← has]
      by_cases hs : a = s
      · by_cases hr : r' = r <;> by_cases ho : o' = o <;> (simp [hs, hr, ho]; try omega)
      · simp [hs]
    · rw [if_neg has, countGroups_cons, countGroups_cons, ih]
      omega

theorem groupTriples_count (ts : List Triple) (s r o : String) :
    countGroups (groupTriples ts) s r o = countTriple ts s r o := by
  have key : ∀ g0, countGroups (ts.foldl (fun g t => addSub g t.1 t.2.1 t.2.2) g0) s r o =
      countGroups g0 s r o + countTriple ts s r o := by
    induction ts with
    | nil => intro g0; simp [countTriple]
    | cons t rest ih =>
      intro g0
      simp only [List.foldl_cons]
      rw [ih (addSub g0 t.1 t.2.1 t.2.2), addSub_count]
      simp [countTriple]
      omega
  have h := key []
  simpa [countGroups] using h

theorem countItems_strs (os : List String) (o : String) :
    countItems (.arr (os.map JsonVal.str)) o = countOcc os o := by
  simp only [countItems, countOcc, List.map_map]
  apply congrArg List.sum
  apply List.map_congr_left
  intro x _
  rfl

theorem countRelJson_relsToJson (rels : List (String × List String)) (r o : String) :
    countRelJson (relsToJson rels) r o = countRels rels r o := by
  simp only [countRelJson, relsToJson, List.map_map]
  congr 1
  apply List.map_congr_left
  intro rv _
  simp only [Function.comp]
  by_cases h : rv.1 = r
  · simp [h, countItems_strs]
  · simp [h]

theorem countUnder_fallbackTree (ts : List Triple) (hne : ts ≠ []) (s r o : String) :
    countUnder (fallbackTreeJson ts) s r o = countTriple ts s r o := by
  cases ts with
  | nil => exact absurd rfl hne
  | cons t ts' =>
    simp only [fallbackTreeJson, countUnder, List.map_cons, List.map_nil, List.sum_cons,
      List.sum_nil, if_pos rfl]
    rw [Nat.add_zero]
    rw [List.map_map]
    have hmap : (groupTriples (t :: ts')).map (countEntry s r o ∘ fun g =>
        JsonVal.obj [(g.1, relsToJson g.2)]) =
        (groupTriples (t :: ts')).map (fun sv => if sv.1 = s then countRels sv.2 r o else 0) := by
      apply List.map_congr_left
      intro g _
      simp only [Function.comp, countEntry, List.map_cons, List.map_nil, List.sum_cons,
        List.sum_nil]
      by_cases h : g.1 = s
      · simp [h, countRelJson_relsToJson]
      · simp [h]
    rw [hmap]
    exact groupTriples_count (t :: ts') s r o

/-! Section: Claim C3: fallback on parse versus validation failure -/

/-- C3 counterexample: when the model response parses to valid JSON that is
not an object with the `concept_maps` key (here an empty array), the
returned value is the minimal `Concept contains` fallback, not the
deterministic tree: the input triple (A, r, B) occurs zero times under
subject A and relation r, where the claim requires exactly one. -/
theorem unifier_validation_no_tree_counterexample :
    countUnder (generate_concept_map_json [("A", "r", "B")] (.ok "x")
      (fun _ => .ok (.arr []))) "A" "r" "B" = 0 ∧
    countUnder (fallbackTreeJson [("A", "r", "B")]) "A" "r" "B" = 1 := by
  constructor
  · rfl
  · rfl

/-- C3 (amended): only when the cleaned response fails to parse as JSON
(a `JSONDecodeError`) does `generate_concept_map_json` return the
deterministic tree rebuilt from the raw triples, in which every input
triple (s, r, o) contributes target o exactly once (with multiplicity)
under subject key s and relation key r; a response that parses but fails
validation instead yields the restructure or minimal fallback. -/
theorem unifier_parse_failure_rebuilds_tree (ts : List Triple) (raw : String)
    (parse : String → Except String JsonVal) (e : String)
    (hp : parse (cleanResponse raw) = .error e) :
    generate_concept_map_json ts (.ok raw) parse = fallbackTreeJson ts ∧
    (ts ≠ [] → ∀ s r o, countUnder (fallbackTreeJson ts) s r o = countTriple ts s r o) := by
  constructor
  · simp only [generate_concept_map_json, hp]
  · intro hne s r o
    exact countUnder_fallbackTree ts hne s r o

/-- C3 witness: a parser that always fails, one triple. -/
theorem unifier_parse_failure_rebuilds_tree_witness :
    generate_concept_map_json [("A", "r", "B")] (.ok "") (fun _ => .error "bad") =
      fallbackTreeJson [("A", "r", "B")] ∧
    countUnder (fallbackTreeJson [("A", "r", "B")]) "A" "r" "B" =
      countTriple [("A", "r", "B")] "A" "r" "B" := by
  have h := unifier_parse_failure_rebuilds_tree [("A", "r", "B")] ""
    (fun _ => .error "bad") "bad" rfl
  exact ⟨h.1, h.2 (by simp) "A" "r" "B"⟩

/-! Section: Claim C6: the unifier never raises and always returns a keyed dict -/

/-- C6: `generate_concept_map_json` is total (the embedding returns a value
for every triple list, model behaviour and parser behaviour), the
returned value is always a dict containing the top-level key
`concept_maps`, and when the model call itself raises it is exactly the
minimal error graph with the single `Error - suggests - Please try again`
node. -/
theorem unifier_never_raises_always_keyed :
    (∀ (ts : List Triple) (model : Except String String)
        (parse : String → Except String JsonVal),
      hasCMKey (generate_concept_map_json ts model parse) = true) ∧
    (∀ (ts : List Triple) (e : String) (parse : String → Except String JsonVal),
      generate_concept_map_json ts (.error e) parse = errorGraphJson) := by
  constructor
  · intro ts model parse
    cases model with
    | error e => rfl
    | ok raw =>
      simp only [generate_concept_map_json]
      cases hp : parse (cleanResponse raw) with
      | error e =>
        cases ts with
        | nil => rfl
        | cons t ts' => rfl
      | ok v =>
        cases v with
        | obj kvs =>
          simp only []
          by_cases hk : hasKeyL kvs "concept_maps" = true
          · rw [if_pos hk]
            simpa [hasCMKey] using hk
          · rw [if_neg hk]
            by_cases he : kvs.isEmpty = true
            · rw [if_pos he]
              rfl
            · rw [if_neg he]
              by_cases hent : (kvs.filterMap fun kv => match kv.2 with
                  | JsonVal.obj o => some (JsonVal.obj [(kv.1, JsonVal.obj o)])
                  | _ => none).isEmpty = true
              · simp only [hent, if_true]
                rfl
              · simp only [hent, Bool.false_eq_true, if_false]
                rfl
        | null => rfl
        | bool b => rfl
        | num n => rfl
        | str s => rfl
        | arr xs => rfl
  · intro ts e parse
    rfl

/-! Section: Claim C4: OCR failure fallbacks -/

/-- C4 counterexample: when the image converts but the vision model is
unavailable, `process_drawing_for_concept_map` returns a bare error
result with zero concepts, not the two-concept mock structure. -/
theorem ocr_vision_unavailable_not_mock_counterexample :
    (process_drawing_for_concept_map "drawing" (.ok ()) (.error "down") (.ok "") (.ok "")
      (fun _ => .ok JsonVal.null) (okPipe (fun _ => [0]))).concepts.length = 0 ∧
    (process_drawing_for_concept_map "drawing" (.ok ()) (.error "down") (.ok "") (.ok "")
      (fun _ => .ok JsonVal.null) (okPipe (fun _ => [0]))).errorMsg =
        some "Vision model not available: down" ∧
    (create_mock_ocr_result "drawing").concepts.length = 2 := by
  refine ⟨rfl, rfl, rfl⟩

/-- C4 (amended): `process_drawing_for_concept_map` never raises (the
embedding is total), and the failure handling is split by stage: an
unconvertible image (an exception while obtaining the image) yields the
fixed two-concept mock structure; vision-model unavailability yields a
bare error dict (`Vision model not available`) with empty concepts; a
malformed (unparseable) JSON response from the vision model yields the
`Invalid JSON response` error dict carrying the raw response text - the
latter two are returned instead of the mock. -/
theorem ocr_failure_fallbacks_by_stage :
    (∀ (svg e : String) (vi : Except String Unit) (vr sr : Except String String)
        (parse : String → Except String JsonVal) (pipe : DotGraph → Except String (List Nat)),
      process_drawing_for_concept_map svg (.error e) vi vr sr parse pipe =
        create_mock_ocr_result svg) ∧
    (∀ (svg e : String) (vr sr : Except String String)
        (parse : String → Except String JsonVal) (pipe : DotGraph → Except String (List Nat)),
      process_drawing_for_concept_map svg (.ok ()) (.error e) vr sr parse pipe =
        { errorMsg := some ("Vision model not available: " ++ e), struct := unknownStruct }) ∧
    (∀ (svg t je : String) (sr : Except String String)
        (pipe : DotGraph → Except String (List Nat)),
      process_drawing_for_concept_map svg (.ok ()) (.ok ()) (.ok t) sr
          (fun _ => .error je) pipe =
        { errorMsg := some ("Invalid JSON response: " ++ je), struct := unknownStruct,
          rawText := some (pstripS t) }) := by
  refine ⟨fun svg e vi vr sr parse pipe => rfl, fun svg e vr sr parse pipe => rfl,
    fun svg t je sr pipe => rfl⟩

/-! Section: Claim C10: the mock passes the input drawing through -/

/-- C10: the mock result reports the original input as its `image` and
claims format `svg` unconditionally: `create_mock_ocr_result` stores the
input string verbatim in the `image` field with format `svg`, and
`process_drawing_for_concept_map` falling back to the mock (shown here
for the conversion-failure stage, for every input including PNG data
URLs) therefore returns the input drawing unrendered with format
`svg`. -/
theorem mock_passes_input_through :
    (∀ svg : String, (create_mock_ocr_result svg).image = some svg ∧
      (create_mock_ocr_result svg).format = some "svg") ∧
    (∀ (svg e : String) (vi : Except String Unit) (vr sr : Except String String)
        (parse : String → Except String JsonVal) (pipe : DotGraph → Except String (List Nat)),
      (process_drawing_for_concept_map svg (.error e) vi vr sr parse pipe).image = some svg ∧
      (process_drawing_for_concept_map svg (.error e) vi vr sr parse pipe).format =
        some "svg") := by
  exact ⟨fun svg => ⟨rfl, rfl⟩, fun svg e vi vr sr parse pipe => ⟨rfl, rfl⟩⟩
